import Mathlib

/-
Shallow embedding of the `DriverManager` registry (the ES6 module in
src/unnamed/part_000, exporting `DriverManager`, `notImplemented`,
`makeAsync`, `makeSync`).

Modelling conventions:
* JS driver objects are association lists `Obj = List (String × Value)`
  in key-insertion order; absence of a key models `undefined`.
* JS functions that occur as driver field values are represented by the
  datatype `FnVal`, which records just what the claims observe about
  them: a synchronous throwing stand-in (`makeSync`), an asynchronous
  throwing stand-in (`makeAsync`, returning a rejected promise), or an
  opaque ordinary (a)synchronous function identified by a tag.
* Promise semantics are embedded by `PendingOp` (a settled promise) with
  `awaitOp` modelling `await` inside an async context.
* The joi Schema Adapter is external per the spec (§1, §6); it is
  modelled executably by `joiValidate`: a compiled schema is a list of
  described fields (key, type, default flag value, presence flag, tags),
  validation checks required/forbidden presence and value types, rejects
  unknown keys, and fills in defaults for absent defaulted fields
  (defaults are applied even to forbidden absent fields, as the test
  `should not try to add a forbidden property` shows joi does).
* `EventEmitter` notifications (`emit('add')` etc.) go to external
  observers and carry no registry state; they are not modelled.
* Errors: `Err.jsError` models `new Error(msg)`, `Err.badRequest` models
  `boom.badRequest(msg)`, `Err.validationError` a joi validation error.
  Mutating methods return `DriverManager × Except Err _`: the first
  component is the post-state even when the call throws, matching JS
  exception semantics (no rollback).
-/

/-- A JS function value as far as the registry is concerned.
`throwsSync msg` is `() => { throw err(msg) }`; `throwsAsync msg` is
`async () => { throw err(msg) }`; `plain`/`plainAsync` are opaque
ordinary functions (schema defaults, generator-supplied overrides). -/
inductive FnVal where
  | throwsSync (msg : String)
  | throwsAsync (msg : String)
  | plain (tag : String)
  | plainAsync (tag : String)
deriving DecidableEq

/-- A driver field value: a string or a function. -/
inductive Value where
  | vstr (s : String)
  | vfn (f : FnVal)
deriving DecidableEq

/-- A JS object in key-insertion order (a driver or a partial driver). -/
abbrev Obj := List (String × Value)

/-- First-match association-list lookup (JS property read; `none` is
`undefined`). -/
def assocLookup {β : Type} (k : String) : List (String × β) → Option β
  | [] => none
  | kv :: rest => if kv.1 = k then some kv.2 else assocLookup k rest

/-- `hasOwnProperty` / lodash `_.has`. -/
def assocHas {β : Type} (k : String) (o : List (String × β)) : Bool :=
  (assocLookup k o).isSome

/-- lodash `_.set(o, [k], v)`: overwrite in place if the key exists,
otherwise append (JS object key-insertion order). -/
def assocSet {β : Type} (o : List (String × β)) (k : String) (v : β) :
    List (String × β) :=
  if assocHas k o then
    o.map (fun kv => if kv.1 = k then (k, v) else kv)
  else o ++ [(k, v)]

/-- `delete o[k]` (JS object key deletion preserving the other keys). -/
def assocDelete {β : Type} (o : List (String × β)) (k : String) :
    List (String × β) :=
  o.filter (fun kv => ¬(kv.1 = k))

/-- lodash `_.defaults(o, src)`: assign each key of `src` that is not
already present in `o`, appending in `src` order. -/
def objDefaults (o src : Obj) : Obj :=
  o ++ src.filter (fun kv => ¬ assocHas kv.1 o)

/-- JS truthiness of a field value (`''` is falsy, functions truthy). -/
def Value.truthy : Value → Bool
  | .vstr s => ¬(s = "")
  | .vfn _ => true

/-- lodash mixin `_.isAsyncFunction` (tests `Symbol.toStringTag ===
'AsyncFunction'`). -/
def FnVal.isAsyncFunction : FnVal → Bool
  | .throwsAsync _ => true
  | .plainAsync _ => true
  | .throwsSync _ => false
  | .plain _ => false

/-- `exports.notImplemented`: the curried message rule
`Cannot call <fnName>() - driver '<driverId>' is missing` of
`boom.notImplemented`. -/
def notImplementedMsg (driverId fnName : String) : String :=
  "Cannot call " ++ fnName ++ "() - driver '" ++ driverId ++ "' is missing"

/-- `exports.makeSync = makeError => val => () => { throw makeError(val) }`. -/
def makeSync (makeError : String → String) (val : String) : FnVal :=
  .throwsSync (makeError val)

/-- `exports.makeAsync = makeError => val => async () => { throw makeError(val) }`. -/
def makeAsync (makeError : String → String) (val : String) : FnVal :=
  .throwsAsync (makeError val)

/-- The overlay's stand-in for field `fieldName` at requested id `reqId`:
`makeAsync`/`makeSync` applied to `notImplemented(_, fieldName)` and then
to the requested id, exactly as the constructor and `_genMissing` wire
them together. -/
def standIn (isAsync : Bool) (reqId fieldName : String) : FnVal :=
  (if isAsync then makeAsync else makeSync)
    (fun driverId => notImplementedMsg driverId fieldName) reqId

/-- A settled pending operation (promise). -/
inductive PendingOp where
  | resolvedUnit
  | rejected (msg : String)
deriving DecidableEq

/-- What calling a `FnVal` does: throw synchronously, return a pending
operation, or return normally (opaque functions). -/
inductive CallOutcome where
  | throws (msg : String)
  | pending (p : PendingOp)
  | returns
deriving DecidableEq

/-- Calling semantics of the embedded function values. -/
def callFn : FnVal → CallOutcome
  | .throwsSync m => .throws m
  | .throwsAsync m => .pending (.rejected m)
  | .plain _ => .returns
  | .plainAsync _ => .pending .resolvedUnit

/-- `await`ing a settled pending operation inside an async context:
a rejected operation surfaces as a thrown exception. -/
def awaitOp : PendingOp → Except String Unit
  | .resolvedUnit => .ok ()
  | .rejected m => .error m

/-- The declared type of a schema field: `joi.string()` or `joi.func()`
(the latter is joi `_type === 'object' && _flags.func`). -/
inductive FieldType where
  | str
  | func
deriving DecidableEq

/-- The joi presence flag (`_flags.presence`; absent flag = optional). -/
inductive Presence where
  | optional
  | required
  | forbidden
deriving DecidableEq

/-- A described top-level field of a compiled joi schema: its key, type,
`_flags.default` (none = no default), `_flags.presence` and `_tags`. -/
structure SchemaField where
  key : String
  type : FieldType
  default? : Option Value
  presence : Presence
  tags : List String
deriving DecidableEq

/-- JS truthiness of `_flags.default` (undefined = falsy). -/
def defaultTruthy (c : SchemaField) : Bool :=
  match c.default? with
  | some v => v.truthy
  | none => false

/-- `_.isAsyncFunction(_flags.default)`. -/
def defaultIsAsyncFunction (c : SchemaField) : Bool :=
  match c.default? with
  | some (.vfn f) => f.isAsyncFunction
  | some (.vstr _) => false
  | none => false

/-- Errors the registry can throw. -/
inductive Err where
  | jsError (msg : String)
  | badRequest (msg : String)
  | validationError (msg : String)
deriving DecidableEq

/-- Does a value conform to a field's declared type? -/
def typeOk : FieldType → Value → Bool
  | .str, .vstr _ => true
  | .str, .vfn _ => false
  | .func, .vfn _ => true
  | .func, .vstr _ => false

/-- Display name of a field type in joi error messages. -/
def typeName : FieldType → String
  | .str => "string"
  | .func => "Function"

/-- Joi's per-field check: forbidden fields must be absent, present
values must have the declared type, required fields must be present. -/
def fieldError (o : Obj) (c : SchemaField) : Option Err :=
  match assocLookup c.key o with
  | some v =>
    if c.presence = .forbidden then
      some (.validationError ("\"" ++ c.key ++ "\" is not allowed"))
    else if typeOk c.type v then none
    else some (.validationError ("\"" ++ c.key ++ "\" must be a " ++ typeName c.type))
  | none =>
    if c.presence = .required then
      some (.validationError ("\"" ++ c.key ++ "\" is required"))
    else none

/-- First failing per-field check, in schema order. -/
def firstFieldError (o : Obj) : List SchemaField → Option Err
  | [] => none
  | c :: rest =>
    match fieldError o c with
    | some e => some e
    | none => firstFieldError o rest

/-- Whether the schema declares a field with the given key. -/
def schemaHasKey (s : List SchemaField) (k : String) : Bool :=
  s.any (fun c => c.key = k)

/-- Joi rejects keys that the schema does not declare. -/
def firstUnknownKey (s : List SchemaField) : Obj → Option Err
  | [] => none
  | kv :: rest =>
    if schemaHasKey s kv.1 then firstUnknownKey s rest
    else some (.validationError ("\"" ++ kv.1 ++ "\" is not allowed"))

/-- The defaults joi fills in: for each schema field absent from the
object that carries a default, the defaulted entry, in schema order. -/
def collectDefaults (s : List SchemaField) (o : Obj) : Obj :=
  s.filterMap (fun c =>
    match assocLookup c.key o, c.default? with
    | none, some v => some (c.key, v)
    | some _, _ => none
    | none, none => none)

/-- The Schema Adapter's `joi.validate(value, schema, options, cb)`:
on success the validated value is the input with defaults appended.
The joi options are opaque configuration (spec §6) and do not alter the
modelled behavior. -/
def joiValidate (s : List SchemaField) (o : Obj) : Except Err Obj :=
  match firstFieldError o s with
  | some e => .error e
  | none =>
    match firstUnknownKey s o with
    | some e => .error e
    | none => .ok (o ++ collectDefaults s o)

/-- The raw missing-driver generator: a JS function
`(requestedDriverId, notImplemented) => partialDriver`.  A falsy return
value is modelled as `none` (`missingDriver(...) || {}`). -/
abbrev MissingGen := String → (String → String) → Option Obj

/-- `_.constant({})`: the generator substituted for the value `true`. -/
def constEmptyGen : MissingGen := fun _ _ => some []

/-- A JS value as passed for the constructor's `options`/`missing`
parameters or assigned to the `missing` setter: `undefined`, `null`,
the boolean `true`, a function, or a plain object. -/
inductive CtorArg where
  | undef
  | nullv
  | boolTrue
  | gen (g : MissingGen)
  | plainObj (o : Obj)

/-- JS truthiness of such an argument. -/
def CtorArg.truthy : CtorArg → Bool
  | .undef => false
  | .nullv => false
  | .boolTrue => true
  | .gen _ => true
  | .plainObj _ => true

/-- lodash `_.isPlainObject`. -/
def CtorArg.isPlainObject : CtorArg → Bool
  | .plainObj _ => true
  | .undef => false
  | .nullv => false
  | .boolTrue => false
  | .gen _ => false

/-- The registry state.  `missingGen` holds the normalized raw generator
captured by the `_genMissing` closure (`some` iff the `missing`
setter ran); `options` holds the joi options value as passed. -/
structure DriverManager where
  driverType : String
  schema : List SchemaField
  options : CtorArg
  fnOverlayTpl : List (String × Bool)
  drivers : List (String × Obj)
  missingGen : Option MissingGen

/-- The iteratee of the constructor's overlay reduce: skip a child
unless it is function-typed with a (truthy) default or required
presence (`!(_type === 'object' && _flags.func && (_flags.default ||
_flags.presence === 'required'))`), skip a forbidden function child,
otherwise `_.set` the async choice
`_.isAsyncFunction(_flags.default) || _.contains(_tags, 'async')`
under the child's key.  The `Bool` is that async choice; the recorded
factory itself is recovered by `standIn`. -/
def overlayStep (acc : List (String × Bool)) (child : SchemaField) : List (String × Bool) :=
  if ¬(child.type = .func ∧ (defaultTruthy child = true ∨ child.presence = .required)) then acc
  else if child.type = .func ∧ child.presence = .forbidden then acc
  else assocSet acc child.key
    (defaultIsAsyncFunction child || child.tags.contains "async")

/-- The Function Overlay Template computed in the constructor:
`_.reduce(joiSchema._inner.children, overlayStep, {})`. -/
def mkOverlayTpl (schema : List SchemaField) : List (String × Bool) :=
  schema.foldl overlayStep []

/-- The required string `id` field the constructor merges in when the
supplied schema lacks an `id` key
(`joi.object().keys({ id: joi.string().required() })`). -/
def idSchemaField : SchemaField :=
  { key := "id", type := .str, default? := none, presence := .required, tags := [] }

/-- `joi.compile(joiSchema || {})` followed by the `id` injection. -/
def compileSchema (s : List SchemaField) : List SchemaField :=
  if schemaHasKey s "id" then s else s ++ [idSchemaField]

/-- Validation pipeline `validate(driver)` (§4.4): `beforeValidate` and
`afterValidate` are no-ops in the base class (`beforeValidate(driver) ||
driver` is `driver`), so the pipeline is the Schema Adapter call. -/
def DriverManager.validate (st : DriverManager) (driver : Obj) : Except Err Obj :=
  joiValidate st.schema driver

/-- `exists(driverId)`: `this.drivers.hasOwnProperty(driverId)`.
(`exists` itself is a reserved word in Lean.) -/
def DriverManager.existsId (st : DriverManager) (driverId : String) : Bool :=
  assocHas driverId st.drivers

/-- `set missing (missingDriver)`: reject a value that is neither a
function nor `true`; reject when a driver with id `'missing'` is already
registered; replace `true` by `_.constant({})`; store the generator
(which makes the `_genMissing` synthesis closure available). -/
def DriverManager.setMissing (st : DriverManager) (missingDriver : CtorArg) :
    DriverManager × Except Err Unit :=
  match missingDriver with
  | .gen g =>
    if st.existsId "missing" then
      (st, .error (.jsError "Cannot configure a default 'missing' driver when a driver with that id has already been added"))
    else ({ st with missingGen := some g }, .ok ())
  | .boolTrue =>
    if st.existsId "missing" then
      (st, .error (.jsError "Cannot configure a default 'missing' driver when a driver with that id has already been added"))
    else ({ st with missingGen := some constEmptyGen }, .ok ())
  | .undef =>
    (st, .error (.jsError "Configured 'missing' driver must be a function or 'true'"))
  | .nullv =>
    (st, .error (.jsError "Configured 'missing' driver must be a function or 'true'"))
  | .plainObj _ =>
    (st, .error (.jsError "Configured 'missing' driver must be a function or 'true'"))

/-- The `_genMissing` synthesis closure (§4.3): call the generator with
the requested id and the bound diagnostic-error factory, force
`id := 'missing'` (`_.set`), fill the gaps from the Function Overlay
Template (`_.defaults` over `_.mapValues(fnOverlayTpl, makeFn =>
makeFn(requestedDriverId))`), and validate. -/
def DriverManager.synthMissing (st : DriverManager) (g : MissingGen)
    (requestedDriverId : String) : Except Err Obj :=
  let missingBase :=
    assocSet ((g requestedDriverId (notImplementedMsg requestedDriverId)).getD [])
      "id" (.vstr "missing")
  let overlay := st.fnOverlayTpl.map
    (fun kb => (kb.1, Value.vfn (standIn kb.2 requestedDriverId kb.1)))
  st.validate (objDefaults missingBase overlay)

/-- The JS property key a validated driver is stored under
(`this.drivers[driver.id]`).  Ids are strings in every schema the
registry builds; the non-string corners (absent id on an all-optional
schema, or a function-valued id) take JS's string conversion, which the
claims never exercise. -/
def idKeyOf (d : Obj) : String :=
  match assocLookup "id" d with
  | some (.vstr s) => s
  | some (.vfn _) => "function"
  | none => "undefined"

/-- `add(driver)`: validate, reject id `'missing'` when a missing
generator is configured, reject duplicate ids, then store and return the
validated driver. -/
def DriverManager.add (st : DriverManager) (driver : Obj) :
    DriverManager × Except Err Obj :=
  match st.validate driver with
  | .error e => (st, .error e)
  | .ok d =>
    if st.missingGen.isSome = true ∧ assocLookup "id" d = some (.vstr "missing") then
      (st, .error (.jsError "A driver with id 'missing' cannot be registered when the DriverManager already has a default 'missing' driver. This should be done when the DriverManager is created."))
    else if st.existsId (idKeyOf d) then
      (st, .error (.jsError ("A driver is already registered with id " ++ idKeyOf d)))
    else
      ({ st with drivers := st.drivers ++ [(idKeyOf d, d)] }, .ok d)

/-- `addAll(drivers)`: `drivers.map(d => this.add(d))`; a throw aborts
the call, keeping the drivers added before the failing element. -/
def DriverManager.addAll (st : DriverManager) :
    List Obj → DriverManager × Except Err (List Obj)
  | [] => (st, .ok [])
  | d :: rest =>
    match st.add d with
    | (st1, .ok v) =>
      match st1.addAll rest with
      | (st2, .ok vs) => (st2, .ok (v :: vs))
      | (st2, .error e) => (st2, .error e)
    | (st1, .error e) => (st1, .error e)

/-- `get(id, allowNull)` (the with-id form): a present id is returned;
an absent id is synthesized when a generator is configured; otherwise a
falsy `allowNull` raises `boom.badRequest` and a truthy one falls
through to the absent (`undefined`) value. -/
def DriverManager.get (st : DriverManager) (id : String) (allowNull : Bool) :
    DriverManager × Except Err (Option Obj) :=
  if st.existsId id then (st, .ok (assocLookup id st.drivers))
  else
    match st.missingGen with
    | some g => (st, (st.synthMissing g id).map some)
    | none =>
      if allowNull = false then
        (st, .error (.badRequest ("No " ++ st.driverType ++ " driver registered with id \"" ++ id ++ "\" and no default 'missing' driver was configured.")))
      else (st, .ok (assocLookup id st.drivers))

/-- `get()` with no arguments: `_.clone(this.drivers)` (a shallow copy
of the store). -/
def DriverManager.getStore (st : DriverManager) :
    DriverManager × List (String × Obj) :=
  (st, st.drivers)

/-- `keys()`: `Object.keys(this.drivers)`. -/
def DriverManager.keys (st : DriverManager) : List String :=
  st.drivers.map (fun kv => kv.1)

/-- `all()`: `_.values(this.drivers)`. -/
def DriverManager.all (st : DriverManager) : List Obj :=
  st.drivers.map (fun kv => kv.2)

/-- `remove(id)`: id `'missing'` is rejected unconditionally; otherwise
a present id is deleted and an absent one is a silent no-op. -/
def DriverManager.remove (st : DriverManager) (id : String) :
    DriverManager × Except Err Unit :=
  if id = "missing" then
    (st, .error (.jsError "Cannot remove the configured default 'missing' driver"))
  else if st.existsId id then
    ({ st with drivers := assocDelete st.drivers id }, .ok ())
  else (st, .ok ())

/-- `removeAll()`: clear the store. -/
def DriverManager.removeAll (st : DriverManager) : DriverManager :=
  { st with drivers := [] }

/-- `remove(id)` of the legacy variant in src/lib/index.js, which has no
missing-driver feature and no `'missing'` guard (spec §9 records this
divergence between source variants and adopts the unconditional
rejection of the primary module). -/
def legacyRemove (drivers : List (String × Obj)) (id : String) :
    List (String × Obj) :=
  if assocHas id drivers then assocDelete drivers id else drivers

/-- The supported constructor call shapes (`arguments.length` from 1 to
4; the 2-argument shape with an omitted schema is `two t []` since
`joi.compile({})` has no children). -/
inductive CtorCall where
  | one (driverType : String)
  | two (driverType : String) (joiSchema : List SchemaField)
  | three (driverType : String) (joiSchema : List SchemaField) (arg3 : CtorArg)
  | four (driverType : String) (joiSchema : List SchemaField)
      (options : CtorArg) (missing : CtorArg)

/-- Constructor body after the 3-argument dispatch: compile the schema,
derive the Function Overlay Template, start with an empty store, and
run the `missing` setter when the `missing` argument is truthy
(`if (missing) this.missing = missing`), propagating its errors. -/
def mkManager (driverType : String) (joiSchema : List SchemaField)
    (options missing : CtorArg) : Except Err DriverManager :=
  let schema := compileSchema joiSchema
  let st0 : DriverManager :=
    { driverType := driverType, schema := schema, options := options,
      fnOverlayTpl := mkOverlayTpl schema, drivers := [], missingGen := none }
  if missing.truthy then
    match st0.setMissing missing with
    | (st1, .ok _) => .ok st1
    | (_, .error e) => .error e
  else .ok st0

/-- `new DriverManager(...)`: with exactly 3 arguments and a third that
is not a plain object, the third argument is the missing generator and
the options are left `undefined`; otherwise positional. -/
def create : CtorCall → Except Err DriverManager
  | .one t => mkManager t [] .undef .undef
  | .two t s => mkManager t s .undef .undef
  | .three t s a =>
    if a.isPlainObject then mkManager t s a .undef
    else mkManager t s .undef a
  | .four t s o m => mkManager t s o m

/-- The registry operations that can touch state, for the reachability
relation (reads like `keys`/`all`/`exists` take no state in the model). -/
inductive Op where
  | add (driver : Obj)
  | addAll (drivers : List Obj)
  | remove (id : String)
  | removeAll
  | setMissing (m : CtorArg)
  | get (id : String) (allowNull : Bool)
  | getStore

/-- The post-state of running one operation (JS exceptions do not roll
state back, so the post-state of a throwing call is still meaningful). -/
def applyOp (st : DriverManager) : Op → DriverManager
  | .add d => (st.add d).1
  | .addAll ds => (st.addAll ds).1
  | .remove id => (st.remove id).1
  | .removeAll => st.removeAll
  | .setMissing m => (st.setMissing m).1
  | .get id an => (st.get id an).1
  | .getStore => st.getStore.1

/-- States reachable from some successful constructor call by any
sequence of operations. -/
inductive Reachable : DriverManager → Prop
  | init (c : CtorCall) (st : DriverManager) : create c = .ok st → Reachable st
  | step (st : DriverManager) (op : Op) : Reachable st → Reachable (applyOp st op)

/-- The mutual-exclusion invariant of claim C4: a configured missing
generator and a stored driver with id `'missing'` cannot coexist. -/
def missingExclusive (st : DriverManager) : Prop :=
  ¬(st.missingGen.isSome = true ∧ st.existsId "missing" = true)

instance (st : DriverManager) : Decidable (missingExclusive st) := by
  unfold missingExclusive
  infer_instance

/-- The Function Overlay Template exactly as the spec sentence of claim
C3 words it, written independently of the constructor's reduce for the
refinement comparison: one entry per top-level field that is
function-typed, carries a default value (any default value counts,
`default?.isSome`) or is marked required, and is not marked forbidden;
the entry is asynchronous iff the default value is an asynchronous
function or the field is tagged `"async"`. -/
def specOverlayTpl (schema : List SchemaField) : List (String × Bool) :=
  schema.filterMap (fun c =>
    if c.type = .func ∧ (c.default?.isSome = true ∨ c.presence = .required) ∧
        ¬(c.presence = .forbidden) then
      some (c.key, (defaultIsAsyncFunction c || c.tags.contains "async"))
    else none)

/-- The amended template characterization matching the code: as
`specOverlayTpl`, except that a default value counts only when it is
truthy, because the constructor's reduce tests the JS truthiness of
`_flags.default` (`_flags.default || _flags.presence === 'required'`).
A function-typed field whose default is falsy (such as the empty
string) and which is not required is therefore excluded. -/
def truthyOverlayTpl (schema : List SchemaField) : List (String × Bool) :=
  schema.filterMap (fun c =>
    if c.type = .func ∧ (defaultTruthy c = true ∨ c.presence = .required) ∧
        ¬(c.presence = .forbidden) then
      some (c.key, (defaultIsAsyncFunction c || c.tags.contains "async"))
    else none)

/-- A two-field schema shaped like the test suite's: required string
`id` and required string `name`. -/
def w1Schema : List SchemaField :=
  [idSchemaField, { key := "name", type := .str, default? := none, presence := .required, tags := [] }]

/-- A generator that supplies its own (to-be-overwritten) id, as in the
test `should force the id of the missing driver to be 'missing'`. -/
def w1Gen : MissingGen :=
  fun _ _ => some [("id", .vstr "temporary"), ("name", .vstr "Missing Driver")]

/-- A registry over `w1Schema` with `w1Gen` configured
(`new DriverManager('things', schema, null, missingFn)`). -/
def w1Mgr : DriverManager :=
  { driverType := "things", schema := w1Schema, options := .nullv,
    fnOverlayTpl := mkOverlayTpl w1Schema, drivers := [], missingGen := some w1Gen }

/-- The driver `w1Mgr` synthesizes for any requested id. -/
def w1Missing : Obj := [("id", .vstr "missing"), ("name", .vstr "Missing Driver")]

/-- A schema with a function-typed field `f` that is optional and has no
default. -/
def cexSchema : List SchemaField :=
  [idSchemaField, { key := "f", type := .func, default? := none, presence := .optional, tags := [] }]

/-- A generator that itself supplies the optional function field `f`. -/
def cexGen : MissingGen :=
  fun _ _ => some [("f", .vfn (.plain "generatorSuppliedFn"))]

/-- A registry over `cexSchema` with `cexGen` configured. -/
def cexMgr : DriverManager :=
  { driverType := "things", schema := cexSchema, options := .undef,
    fnOverlayTpl := mkOverlayTpl cexSchema, drivers := [], missingGen := some cexGen }

/-- The optional, defaultless, function-typed field of `cexSchema`. -/
def cexField : SchemaField :=
  { key := "f", type := .func, default? := none, presence := .optional, tags := [] }

/-- What `cexMgr` synthesizes: the generator-supplied `f` survives
(`_.defaults` only fills gaps) and the forced id is appended. -/
def cexDriver : Obj :=
  [("f", .vfn (.plain "generatorSuppliedFn")), ("id", .vstr "missing")]

/-- A function-typed field carrying a falsy default value (the shape of
`joi.func().default('')`): it carries a default and is not forbidden,
yet the constructor's truthiness test keeps it out of the template. -/
def cexField2 : SchemaField :=
  { key := "emptyDefaultFn", type := .func, default? := some (.vstr ""),
    presence := .optional, tags := [] }

/-- A schema containing `cexField2`. -/
def cexSchema2 : List SchemaField := [idSchemaField, cexField2]

/-- A schema with a defaulted sync function field and an optional
defaultless function field (shapes from the module test suite). -/
def w3Schema : List SchemaField :=
  [idSchemaField,
   { key := "syncFn", type := .func, default? := some (.vfn (.plain "defaultSyncFn")),
     presence := .optional, tags := [] },
   { key := "optionalSyncFn", type := .func, default? := none,
     presence := .optional, tags := [] }]

/-- A generator returning an empty partial driver. -/
def w3Gen : MissingGen := fun _ _ => some []

/-- A registry over `w3Schema` with `w3Gen` configured. -/
def w3Mgr : DriverManager :=
  { driverType := "things", schema := w3Schema, options := .undef,
    fnOverlayTpl := mkOverlayTpl w3Schema, drivers := [], missingGen := some w3Gen }

/-- The optional, defaultless, function-typed field of `w3Schema`. -/
def w3Field : SchemaField :=
  { key := "optionalSyncFn", type := .func, default? := none, presence := .optional, tags := [] }

/-- What `w3Mgr` synthesizes for requested id `foo`. -/
def w3Missing : Obj :=
  [("id", .vstr "missing"), ("syncFn", .vfn (standIn false "foo" "syncFn"))]

/-- The registry `new DriverManager('driver')` builds: injected id-only
schema, empty overlay, empty store, no generator. -/
def mgrBlank : DriverManager :=
  { driverType := "driver", schema := [idSchemaField], options := .undef,
    fnOverlayTpl := [], drivers := [], missingGen := none }

/-- A driver whose id is the literal string `missing`. -/
def missingDriverObj : Obj := [("id", .vstr "missing")]

/-- A registry holding a manually registered driver with id `missing`
and no generator. -/
def mgrWithMissingStored : DriverManager :=
  { driverType := "things", schema := [idSchemaField], options := .undef,
    fnOverlayTpl := [], drivers := [("missing", missingDriverObj)], missingGen := none }

/-- A generator returning an empty partial driver. -/
def w4Gen : MissingGen := fun _ _ => some []

/-- A registry with `w4Gen` configured and an empty store. -/
def mgrWithGen : DriverManager :=
  { driverType := "things", schema := [idSchemaField], options := .undef,
    fnOverlayTpl := [], drivers := [], missingGen := some w4Gen }

/-- A driver with id `foo`. -/
def fooDriver : Obj := [("id", .vstr "foo")]

/-- A registry already holding `fooDriver` under key `foo`. -/
def mgrWithFoo : DriverManager :=
  { driverType := "driver", schema := [idSchemaField], options := .undef,
    fnOverlayTpl := [], drivers := [("foo", fooDriver)], missingGen := none }

/-- A plain-object joi options value. -/
def w10Opts : Obj := [("opt", .vstr "x")]

/-- The registry built by `new DriverManager('things', {}, {opt})`. -/
def mgrThreeOpts : DriverManager :=
  { driverType := "things", schema := [idSchemaField], options := .plainObj w10Opts,
    fnOverlayTpl := [], drivers := [], missingGen := none }

/-- The registry built by `new DriverManager('things', {}, null, fn)`. -/
def mgrFour : DriverManager :=
  { driverType := "things", schema := [idSchemaField], options := .nullv,
    fnOverlayTpl := [], drivers := [], missingGen := some w4Gen }

theorem assocLookup_append {β : Type} (k : String) (o p : List (String × β)) :
    assocLookup k (o ++ p) =
      match assocLookup k o with
      | some v => some v
      | none => assocLookup k p := by
  induction o with
  | nil => simp [assocLookup]
  | cons kv rest ih =>
    by_cases h : kv.1 = k
    · simp [assocLookup, h]
    · simp [assocLookup, h, ih]

theorem assocLookup_append_left {β : Type} {k : String} {o p : List (String × β)} {v : β}
    (h : assocLookup k o = some v) : assocLookup k (o ++ p) = some v := by
  rw [assocLookup_append, h]

theorem assocLookup_append_right {β : Type} {k : String} {o p : List (String × β)}
    (h : assocLookup k o = none) : assocLookup k (o ++ p) = assocLookup k p := by
  rw [assocLookup_append, h]

theorem assocLookup_map_set {β : Type} (k : String) (v : β) (o : List (String × β)) :
    assocLookup k (o.map (fun kv => if kv.1 = k then (k, v) else kv)) =
      if (assocLookup k o).isSome then some v else none := by
  induction o with
  | nil => simp [assocLookup]
  | cons kv rest ih =>
    by_cases h : kv.1 = k
    · simp [assocLookup, h]
    · simp [assocLookup, h, ih]

theorem assocLookup_assocSet_self {β : Type} (o : List (String × β)) (k : String) (v : β) :
    assocLookup k (assocSet o k v) = some v := by
  unfold assocSet assocHas
  cases hl : assocLookup k o with
  | some w => simp [hl, assocLookup_map_set]
  | none =>
    simp only [hl, Option.isSome_none, Bool.false_eq_true, if_false]
    rw [assocLookup_append_right hl]
    simp [assocLookup]

theorem assocLookup_map_set_ne {β : Type} {k k' : String} (h : k' ≠ k) (v : β)
    (o : List (String × β)) :
    assocLookup k' (o.map (fun kv => if kv.1 = k then (k, v) else kv)) =
      assocLookup k' o := by
  induction o with
  | nil => rfl
  | cons kv rest ih =>
    by_cases hk : kv.1 = k
    · have hkk : ¬(k = k') := fun e => h e.symm
      simp [assocLookup, hk, hkk, ih]
    · simp [assocLookup, hk, ih]

theorem assocLookup_assocSet_ne {β : Type} (o : List (String × β)) {k k' : String} (v : β)
    (h : k' ≠ k) : assocLookup k' (assocSet o k v) = assocLookup k' o := by
  unfold assocSet assocHas
  cases hl : assocLookup k o with
  | some w => simp [hl, assocLookup_map_set_ne h]
  | none =>
    simp only [hl, Option.isSome_none, Bool.false_eq_true, if_false]
    rw [assocLookup_append]
    cases hl' : assocLookup k' o with
    | some w => rfl
    | none =>
      have hkk : ¬(k = k') := fun e => h e.symm
      simp [assocLookup, hkk]

theorem assocLookup_filter_none {β : Type} {l : List (String × β)} {k : String}
    (p : String × β → Bool) (h : assocLookup k l = none) :
    assocLookup k (l.filter p) = none := by
  induction l with
  | nil => rfl
  | cons kv rest ih =>
    by_cases hk : kv.1 = k
    · simp [assocLookup, hk] at h
    · simp only [assocLookup, hk, if_false] at h
      by_cases hp : p kv = true
      · rw [List.filter_cons_of_pos hp]
        simp only [assocLookup, hk, if_false]
        exact ih h
      · rw [List.filter_cons_of_neg hp]
        exact ih h

theorem assocHas_append {β : Type} (k : String) (o p : List (String × β)) :
    assocHas k (o ++ p) = (assocHas k o || assocHas k p) := by
  unfold assocHas
  rw [assocLookup_append]
  cases assocLookup k o <;> simp

theorem assocLookup_objDefaults_left {o src : Obj} {k : String} {v : Value}
    (h : assocLookup k o = some v) : assocLookup k (objDefaults o src) = some v := by
  unfold objDefaults
  exact assocLookup_append_left h

theorem assocLookup_objDefaults_none {o src : Obj} {k : String}
    (ho : assocLookup k o = none) (hs : assocLookup k src = none) :
    assocLookup k (objDefaults o src) = none := by
  unfold objDefaults
  rw [assocLookup_append, ho]
  exact assocLookup_filter_none _ hs

theorem assocLookup_overlay_none {tpl : List (String × Bool)} {k : String}
    (h : assocLookup k tpl = none) (r : String) :
    assocLookup k (tpl.map (fun kb => (kb.1, Value.vfn (standIn kb.2 r kb.1)))) = none := by
  induction tpl with
  | nil => rfl
  | cons kb rest ih =>
    by_cases hk : kb.1 = k
    · simp [assocLookup, hk] at h
    · simp only [assocLookup, hk, if_false, List.map_cons] at h ⊢
      exact ih h

theorem assocSet_of_not_has {β : Type} {o : List (String × β)} {k : String} (v : β)
    (h : assocHas k o = false) : assocSet o k v = o ++ [(k, v)] := by
  unfold assocSet
  rw [h]
  rfl

theorem joiValidate_ok_eq {s : List SchemaField} {o d : Obj}
    (h : joiValidate s o = .ok d) : d = o ++ collectDefaults s o := by
  unfold joiValidate at h
  cases h1 : firstFieldError o s with
  | some e => rw [h1] at h; simp at h
  | none =>
    rw [h1] at h
    cases h2 : firstUnknownKey s o with
    | some e => rw [h2] at h; simp at h
    | none =>
      rw [h2] at h
      simp at h
      exact h.symm

theorem joiValidate_ok_fieldErrors {s : List SchemaField} {o d : Obj}
    (h : joiValidate s o = .ok d) : firstFieldError o s = none := by
  unfold joiValidate at h
  cases h1 : firstFieldError o s with
  | some e => rw [h1] at h; simp at h
  | none => rfl

theorem firstFieldError_none_mem {o : Obj} {c : SchemaField} :
    ∀ {s : List SchemaField}, firstFieldError o s = none → c ∈ s → fieldError o c = none := by
  intro s
  induction s with
  | nil => intro _ hc; cases hc
  | cons c0 rest ih =>
    intro h hc
    cases hf : fieldError o c0 with
    | some e => simp [firstFieldError, hf] at h
    | none =>
      simp only [firstFieldError, hf] at h
      rcases List.mem_cons.mp hc with rfl | hm
      · exact hf
      · exact ih h hm

theorem collectDefaults_lookup_none {s : List SchemaField} {o : Obj} {k : String}
    (h : ∀ c ∈ s, c.key = k → c.default? = none) :
    assocLookup k (collectDefaults s o) = none := by
  induction s with
  | nil => rfl
  | cons c rest ih =>
    have hrest : ∀ c' ∈ rest, c'.key = k → c'.default? = none :=
      fun c' hm => h c' (List.mem_cons_of_mem _ hm)
    have hc := h c (List.mem_cons_self _ _)
    simp only [collectDefaults, List.filterMap_cons]
    cases hl : assocLookup c.key o with
    | some v =>
      simpa only [collectDefaults] using ih hrest
    | none =>
      cases hd : c.default? with
      | none => simpa only [collectDefaults] using ih hrest
      | some v =>
        by_cases hk : c.key = k
        · exact absurd (hc hk) (by simp [hd])
        · simp only [assocLookup, hk, if_false]
          simpa only [collectDefaults] using ih hrest

theorem joiValidate_preserves {s : List SchemaField} {o d : Obj} {k : String} {v : Value}
    (h : joiValidate s o = .ok d) (hk : assocLookup k o = some v) :
    assocLookup k d = some v := by
  rw [joiValidate_ok_eq h]
  exact assocLookup_append_left hk

theorem joiValidate_absent {s : List SchemaField} {o d : Obj} {k : String}
    (h : joiValidate s o = .ok d) (hk : assocLookup k o = none)
    (hdef : ∀ c ∈ s, c.key = k → c.default? = none) :
    assocLookup k d = none := by
  rw [joiValidate_ok_eq h, assocLookup_append, hk]
  exact collectDefaults_lookup_none hdef

theorem truthyOverlayTpl_lookup_some {k : String} {b : Bool} :
    ∀ {s : List SchemaField}, assocLookup k (truthyOverlayTpl s) = some b →
      ∃ c, c ∈ s ∧ c.key = k ∧
        (c.type = .func ∧ (defaultTruthy c = true ∨ c.presence = .required) ∧
          ¬(c.presence = .forbidden)) := by
  intro s
  induction s with
  | nil => intro h; simp [truthyOverlayTpl, assocLookup] at h
  | cons c rest ih =>
    intro h
    by_cases hcond : c.type = .func ∧ (defaultTruthy c = true ∨ c.presence = .required) ∧
        ¬(c.presence = .forbidden)
    · simp only [truthyOverlayTpl, List.filterMap_cons, if_pos hcond] at h
      by_cases hk : c.key = k
      · exact ⟨c, List.mem_cons_self _ _, hk, hcond⟩
      · simp only [assocLookup, hk, if_false] at h
        obtain ⟨c', hm, hkey, hc⟩ := ih h
        exact ⟨c', List.mem_cons_of_mem _ hm, hkey, hc⟩
    · simp only [truthyOverlayTpl, List.filterMap_cons, if_neg hcond] at h
      obtain ⟨c', hm, hkey, hc⟩ := ih h
      exact ⟨c', List.mem_cons_of_mem _ hm, hkey, hc⟩

theorem nodupKeys_eq {c c' : SchemaField} :
    ∀ {s : List SchemaField}, (s.map SchemaField.key).Nodup →
      c ∈ s → c' ∈ s → c.key = c'.key → c = c' := by
  intro s
  induction s with
  | nil => intro _ hc; cases hc
  | cons c0 rest ih =>
    intro hnd hc hc' hk
    have hhead : c0.key ∉ rest.map SchemaField.key := (List.nodup_cons.mp hnd).1
    have htail : (rest.map SchemaField.key).Nodup := (List.nodup_cons.mp hnd).2
    rcases List.mem_cons.mp hc with rfl | hm
    · rcases List.mem_cons.mp hc' with rfl | hm'
      · rfl
      · exact absurd (hk ▸ List.mem_map_of_mem SchemaField.key hm') hhead
    · rcases List.mem_cons.mp hc' with rfl | hm'
      · exact absurd (hk ▸ List.mem_map_of_mem SchemaField.key hm) hhead
      · exact ih htail hm hm' hk

theorem foldl_overlayStep :
    ∀ (s : List SchemaField) (acc : List (String × Bool)),
      (∀ c ∈ s, assocHas c.key acc = false) → (s.map SchemaField.key).Nodup →
      s.foldl overlayStep acc = acc ++ truthyOverlayTpl s := by
  intro s
  induction s with
  | nil => intro acc _ _; simp [truthyOverlayTpl]
  | cons c rest ih =>
    intro acc hacc hnd
    have hhead : c.key ∉ rest.map SchemaField.key := (List.nodup_cons.mp hnd).1
    have htail : (rest.map SchemaField.key).Nodup := (List.nodup_cons.mp hnd).2
    have haccc : assocHas c.key acc = false := hacc c (List.mem_cons_self _ _)
    have hacctail : ∀ c' ∈ rest, assocHas c'.key acc = false :=
      fun c' hm => hacc c' (List.mem_cons_of_mem _ hm)
    rw [List.foldl_cons]
    by_cases h1 : c.type = .func ∧ (defaultTruthy c = true ∨ c.presence = .required)
    · by_cases h2 : c.presence = .forbidden
      · have hstep : overlayStep acc c = acc := by
          unfold overlayStep
          rw [if_neg (not_not_intro h1), if_pos ⟨h1.1, h2⟩]
        have hcond : ¬(c.type = .func ∧ (defaultTruthy c = true ∨ c.presence = .required) ∧
            ¬(c.presence = .forbidden)) := fun hc => hc.2.2 h2
        rw [hstep, ih acc hacctail htail]
        simp only [truthyOverlayTpl, List.filterMap_cons, if_neg hcond]
      · have hstep : overlayStep acc c =
            acc ++ [(c.key, defaultIsAsyncFunction c || c.tags.contains "async")] := by
          unfold overlayStep
          rw [if_neg (not_not_intro h1), if_neg (fun hc => h2 hc.2)]
          exact assocSet_of_not_has _ haccc
        have hcond : c.type = .func ∧ (defaultTruthy c = true ∨ c.presence = .required) ∧
            ¬(c.presence = .forbidden) := ⟨h1.1, h1.2, h2⟩
        have hacc' : ∀ c' ∈ rest,
            assocHas c'.key (acc ++ [(c.key, defaultIsAsyncFunction c || c.tags.contains "async")]) = false := by
          intro c' hm
          rw [assocHas_append]
          have h1' : assocHas c'.key acc = false := hacctail c' hm
          have hne : ¬(c.key = c'.key) :=
            fun e => hhead (e ▸ List.mem_map_of_mem SchemaField.key hm)
          have h2' : assocHas c'.key [(c.key, defaultIsAsyncFunction c || c.tags.contains "async")] = false := by
            simp [assocHas, assocLookup, hne]
          rw [h1', h2']
          rfl
        rw [hstep, ih _ hacc' htail]
        simp only [truthyOverlayTpl, List.filterMap_cons, if_pos hcond, List.append_assoc,
          List.singleton_append]
    · have hstep : overlayStep acc c = acc := by
        unfold overlayStep
        rw [if_pos (by exact h1)]
      have hcond : ¬(c.type = .func ∧ (defaultTruthy c = true ∨ c.presence = .required) ∧
          ¬(c.presence = .forbidden)) := fun hc => h1 ⟨hc.1, hc.2.1⟩
      rw [hstep, ih acc hacctail htail]
      simp only [truthyOverlayTpl, List.filterMap_cons, if_neg hcond]

theorem mkOverlayTpl_eq_truthy {s : List SchemaField}
    (hnd : (s.map SchemaField.key).Nodup) : mkOverlayTpl s = truthyOverlayTpl s := by
  unfold mkOverlayTpl
  rw [foldl_overlayStep s [] (fun c _ => rfl) hnd]
  rfl

theorem existsId_false_lookup {st : DriverManager} {i : String}
    (h : st.existsId i = false) : assocLookup i st.drivers = none := by
  unfold DriverManager.existsId assocHas at h
  cases hl : assocLookup i st.drivers with
  | none => rfl
  | some v => rw [hl] at h; simp at h

theorem get_fst (st : DriverManager) (id : String) (an : Bool) :
    (st.get id an).1 = st := by
  unfold DriverManager.get
  split
  · rfl
  · split
    · rfl
    · split
      · rfl
      · rfl


theorem setMissing_fst_drivers (st : DriverManager) (m : CtorArg) :
    (st.setMissing m).1.drivers = st.drivers := by
  cases m with
  | gen g =>
    by_cases he : st.existsId "missing" = true
    · simp only [DriverManager.setMissing, if_pos he]
    · simp only [DriverManager.setMissing, if_neg he]
  | boolTrue =>
    by_cases he : st.existsId "missing" = true
    · simp only [DriverManager.setMissing, if_pos he]
    · simp only [DriverManager.setMissing, if_neg he]
  | undef => rfl
  | nullv => rfl
  | plainObj o => rfl

theorem add_validate_error {st : DriverManager} {driver : Obj} {e : Err}
    (hv : st.validate driver = .error e) : st.add driver = (st, .error e) := by
  unfold DriverManager.add
  rw [hv]

theorem add_missing_guard {st : DriverManager} {driver d : Obj}
    (hv : st.validate driver = .ok d)
    (h1 : st.missingGen.isSome = true ∧ assocLookup "id" d = some (.vstr "missing")) :
    st.add driver = (st, .error (.jsError "A driver with id 'missing' cannot be registered when the DriverManager already has a default 'missing' driver. This should be done when the DriverManager is created.")) := by
  unfold DriverManager.add
  rw [hv]
  simp only [if_pos h1]

theorem add_duplicate {st : DriverManager} {driver d : Obj}
    (hv : st.validate driver = .ok d)
    (h1 : ¬(st.missingGen.isSome = true ∧ assocLookup "id" d = some (.vstr "missing")))
    (h2 : st.existsId (idKeyOf d) = true) :
    st.add driver = (st, .error (.jsError ("A driver is already registered with id " ++ idKeyOf d))) := by
  unfold DriverManager.add
  rw [hv]
  simp only [if_neg h1, if_pos h2]

theorem add_stores {st : DriverManager} {driver d : Obj}
    (hv : st.validate driver = .ok d)
    (h1 : ¬(st.missingGen.isSome = true ∧ assocLookup "id" d = some (.vstr "missing")))
    (h2 : ¬(st.existsId (idKeyOf d) = true)) :
    st.add driver = ({ st with drivers := st.drivers ++ [(idKeyOf d, d)] }, .ok d) := by
  unfold DriverManager.add
  rw [hv]
  simp only [if_neg h1, if_neg h2]

theorem mkManager_gen_eq (t : String) (s : List SchemaField) (o : CtorArg) (g : MissingGen) :
    mkManager t s o (.gen g) =
      .ok { driverType := t, schema := compileSchema s, options := o,
            fnOverlayTpl := mkOverlayTpl (compileSchema s), drivers := [],
            missingGen := some g } := rfl

theorem mkManager_boolTrue_eq (t : String) (s : List SchemaField) (o : CtorArg) :
    mkManager t s o .boolTrue =
      .ok { driverType := t, schema := compileSchema s, options := o,
            fnOverlayTpl := mkOverlayTpl (compileSchema s), drivers := [],
            missingGen := some constEmptyGen } := rfl

theorem mkManager_undef_eq (t : String) (s : List SchemaField) (o : CtorArg) :
    mkManager t s o .undef =
      .ok { driverType := t, schema := compileSchema s, options := o,
            fnOverlayTpl := mkOverlayTpl (compileSchema s), drivers := [],
            missingGen := none } := rfl

theorem mkManager_nullv_eq (t : String) (s : List SchemaField) (o : CtorArg) :
    mkManager t s o .nullv =
      .ok { driverType := t, schema := compileSchema s, options := o,
            fnOverlayTpl := mkOverlayTpl (compileSchema s), drivers := [],
            missingGen := none } := rfl

theorem mkManager_plainObj_eq (t : String) (s : List SchemaField) (o : CtorArg) (oo : Obj) :
    mkManager t s o (.plainObj oo) =
      .error (.jsError "Configured 'missing' driver must be a function or 'true'") := rfl

theorem mkManager_ok_basic {t : String} {s : List SchemaField} {o m : CtorArg}
    {st : DriverManager} (h : mkManager t s o m = .ok st) :
    st.drivers = [] ∧ st.options = o ∧ st.schema = compileSchema s ∧
    st.driverType = t ∧ st.fnOverlayTpl = mkOverlayTpl (compileSchema s) := by
  cases m with
  | undef =>
    rw [mkManager_undef_eq] at h
    cases Except.ok.inj h
    exact ⟨rfl, rfl, rfl, rfl, rfl⟩
  | nullv =>
    rw [mkManager_nullv_eq] at h
    cases Except.ok.inj h
    exact ⟨rfl, rfl, rfl, rfl, rfl⟩
  | gen g =>
    rw [mkManager_gen_eq] at h
    cases Except.ok.inj h
    exact ⟨rfl, rfl, rfl, rfl, rfl⟩
  | boolTrue =>
    rw [mkManager_boolTrue_eq] at h
    cases Except.ok.inj h
    exact ⟨rfl, rfl, rfl, rfl, rfl⟩
  | plainObj oo =>
    rw [mkManager_plainObj_eq] at h
    exact absurd h (by simp)

theorem mkManager_gen_missingGen {t : String} {s : List SchemaField} {o : CtorArg}
    {g : MissingGen} {st : DriverManager} (h : mkManager t s o (.gen g) = .ok st) :
    st.missingGen = some g := by
  rw [mkManager_gen_eq] at h
  cases Except.ok.inj h
  rfl

theorem mkManager_boolTrue_missingGen {t : String} {s : List SchemaField} {o : CtorArg}
    {st : DriverManager} (h : mkManager t s o .boolTrue = .ok st) :
    st.missingGen = some constEmptyGen := by
  rw [mkManager_boolTrue_eq] at h
  cases Except.ok.inj h
  rfl

theorem mkManager_undef_missingGen {t : String} {s : List SchemaField} {o : CtorArg}
    {st : DriverManager} (h : mkManager t s o .undef = .ok st) :
    st.missingGen = none := by
  rw [mkManager_undef_eq] at h
  cases Except.ok.inj h
  rfl

theorem mkManager_nullv_missingGen {t : String} {s : List SchemaField} {o : CtorArg}
    {st : DriverManager} (h : mkManager t s o .nullv = .ok st) :
    st.missingGen = none := by
  rw [mkManager_nullv_eq] at h
  cases Except.ok.inj h
  rfl

theorem create_ok_drivers {c : CtorCall} {st : DriverManager}
    (h : create c = .ok st) : st.drivers = [] := by
  cases c with
  | one t =>
    exact (mkManager_ok_basic (show mkManager t [] .undef .undef = .ok st from h)).1
  | two t s =>
    exact (mkManager_ok_basic (show mkManager t s .undef .undef = .ok st from h)).1
  | three t s a =>
    have h' : (if a.isPlainObject = true then mkManager t s a .undef
        else mkManager t s .undef a) = .ok st := h
    by_cases hp : a.isPlainObject = true
    · rw [if_pos hp] at h'
      exact (mkManager_ok_basic h').1
    · rw [if_neg hp] at h'
      exact (mkManager_ok_basic h').1
  | four t s o m =>
    exact (mkManager_ok_basic (show mkManager t s o m = .ok st from h)).1

theorem missingExclusive_of_nil {st : DriverManager} (h : st.drivers = []) :
    missingExclusive st := by
  intro hand
  have hm := hand.2
  unfold DriverManager.existsId assocHas at hm
  rw [h] at hm
  simp [assocLookup] at hm

theorem idKeyOf_ne_missing {d : Obj}
    (h : ¬(assocLookup "id" d = some (.vstr "missing"))) : ¬(idKeyOf d = "missing") := by
  intro he
  unfold idKeyOf at he
  cases hl : assocLookup "id" d with
  | none => rw [hl] at he; simp at he
  | some v =>
    rw [hl] at he
    cases v with
    | vstr s =>
      simp at he
      exact h (by rw [hl, he])
    | vfn f => simp at he

theorem existsId_append_last {st : DriverManager} {k : String} {d : Obj}
    (st' : DriverManager) (h : st'.drivers = st.drivers ++ [(k, d)]) (hk : ¬(k = "missing"))
    (hm : ¬(st.existsId "missing" = true)) : ¬(st'.existsId "missing" = true) := by
  intro he
  unfold DriverManager.existsId at he
  rw [h, assocHas_append] at he
  rw [Bool.or_eq_true] at he
  rcases he with h3 | h3
  · exact hm h3
  · simp [assocHas, assocLookup, hk] at h3

theorem exclusive_add {st : DriverManager} (d : Obj) (h : missingExclusive st) :
    missingExclusive (st.add d).1 := by
  cases hv : st.validate d with
  | error e => rw [add_validate_error hv]; exact h
  | ok d' =>
    by_cases h1 : st.missingGen.isSome = true ∧ assocLookup "id" d' = some (.vstr "missing")
    · rw [add_missing_guard hv h1]; exact h
    · by_cases h2 : st.existsId (idKeyOf d') = true
      · rw [add_duplicate hv h1 h2]; exact h
      · rw [add_stores hv h1 h2]
        rintro ⟨hg, hm⟩
        have hnotstored : ¬(st.existsId "missing" = true) := fun he => h ⟨hg, he⟩
        have hkey : ¬(idKeyOf d' = "missing") :=
          idKeyOf_ne_missing (fun hl => h1 ⟨hg, hl⟩)
        exact existsId_append_last _ rfl hkey hnotstored hm

theorem exclusive_addAll : ∀ (ds : List Obj) (st : DriverManager),
    missingExclusive st → missingExclusive (st.addAll ds).1
  | [], _, h => h
  | d :: rest, st, h => by
    have h1 : missingExclusive (st.add d).1 := exclusive_add d h
    cases ha : st.add d with
    | mk st1 r =>
      rw [ha] at h1
      cases r with
      | ok v =>
        have h2 : missingExclusive (st1.addAll rest).1 := exclusive_addAll rest st1 h1
        unfold DriverManager.addAll
        rw [ha]
        show missingExclusive
          (match st1.addAll rest with
           | (st2, Except.ok vs) => (st2, Except.ok (v :: vs))
           | (st2, Except.error e) => (st2, Except.error e)).1
        cases hr : st1.addAll rest with
        | mk st2 r2 =>
          rw [hr] at h2
          cases r2 with
          | ok vs => exact h2
          | error e => exact h2
      | error e =>
        unfold DriverManager.addAll
        rw [ha]
        exact h1

theorem exclusive_remove {st : DriverManager} (id : String) (h : missingExclusive st) :
    missingExclusive (st.remove id).1 := by
  unfold DriverManager.remove
  by_cases h1 : id = "missing"
  · rw [if_pos h1]; exact h
  · rw [if_neg h1]
    by_cases h2 : st.existsId id = true
    · rw [if_pos h2]
      rintro ⟨hg, hm⟩
      apply h
      refine ⟨hg, ?_⟩
      unfold DriverManager.existsId assocHas at hm ⊢
      cases hl : assocLookup "missing" st.drivers with
      | some v => rfl
      | none =>
        rw [assocDelete] at hm
        rw [assocLookup_filter_none _ hl] at hm
        simp at hm
    · rw [if_neg h2]; exact h

theorem exclusive_removeAll (st : DriverManager) :
    missingExclusive st.removeAll :=
  missingExclusive_of_nil rfl

theorem exclusive_setMissing {st : DriverManager} (m : CtorArg) (h : missingExclusive st) :
    missingExclusive (st.setMissing m).1 := by
  cases m with
  | gen g =>
    by_cases he : st.existsId "missing" = true
    · simp only [DriverManager.setMissing, if_pos he]; exact h
    · simp only [DriverManager.setMissing, if_neg he]
      rintro ⟨_, hm⟩
      exact he hm
  | boolTrue =>
    by_cases he : st.existsId "missing" = true
    · simp only [DriverManager.setMissing, if_pos he]; exact h
    · simp only [DriverManager.setMissing, if_neg he]
      rintro ⟨_, hm⟩
      exact he hm
  | undef => exact h
  | nullv => exact h
  | plainObj o => exact h

theorem exclusive_step (st : DriverManager) (op : Op) (h : missingExclusive st) :
    missingExclusive (applyOp st op) := by
  cases op with
  | add d => exact exclusive_add d h
  | addAll ds => exact exclusive_addAll ds st h
  | remove id => exact exclusive_remove id h
  | removeAll => exact exclusive_removeAll st
  | setMissing m => exact exclusive_setMissing m h
  | get id an => rw [show applyOp st (.get id an) = (st.get id an).1 from rfl, get_fst]; exact h
  | getStore => exact h

theorem exclusive_reachable {st : DriverManager} (h : Reachable st) :
    missingExclusive st := by
  induction h with
  | init c st hc => exact missingExclusive_of_nil (create_ok_drivers hc)
  | step st op _ ih => exact exclusive_step st op ih

theorem legacyRemove_missing_silent (drivers : List (String × Obj))
    (h : assocHas "missing" drivers = false) :
    legacyRemove drivers "missing" = drivers := by
  unfold legacyRemove
  rw [h]
  rfl

/-- C1: for every registry with a missing generator configured and every
requested id `r` not present in the store, `get(r)` (for any value of
`allowNull`) returns the synthesized, schema-validated driver for `r`
(whenever synthesis validates), and that driver's `id` field equals the
literal string `missing` even when the generator supplied a different
id. -/
theorem C1_get_missing_synthesis :
    ∀ (st : DriverManager) (g : MissingGen) (r : String) (an : Bool) (d : Obj),
      st.missingGen = some g → st.existsId r = false → st.synthMissing g r = .ok d →
      (st.get r an).2 = .ok (some d) ∧ assocLookup "id" d = some (.vstr "missing") := by
  intro st g r an d hg he hs
  constructor
  · unfold DriverManager.get
    rw [if_neg (by rw [he]; simp), hg]
    show ((st.synthMissing g r).map some) = .ok (some d)
    rw [hs]
    rfl
  · have hs' : joiValidate st.schema
        (objDefaults (assocSet ((g r (notImplementedMsg r)).getD []) "id" (.vstr "missing"))
          (st.fnOverlayTpl.map (fun kb => (kb.1, Value.vfn (standIn kb.2 r kb.1))))) = .ok d := hs
    exact joiValidate_preserves hs'
      (assocLookup_objDefaults_left (assocLookup_assocSet_self _ _ _))

/-- C1 witness at a concrete registry: the generator supplies id
`temporary` but the synthesized driver `get` returns carries id
`missing`. -/
theorem C1_witness :
    (w1Mgr.get "foo" false).2 = .ok (some w1Missing) ∧
    assocLookup "id" w1Missing = some (.vstr "missing") :=
  C1_get_missing_synthesis w1Mgr w1Gen "foo" false w1Missing rfl rfl rfl

/-- C2: a synchronous stand-in produced by the overlay for field `f` and
requested id `r` throws an error with message exactly
`Cannot call f() - driver 'r' is missing`, and an asynchronous stand-in
returns a pending operation that settles to failure with the identical
message, observable both as a rejected result and as a thrown exception
when awaited. -/
theorem C2_standin_semantics :
    ∀ (fieldName requestedId : String),
      callFn (standIn false requestedId fieldName) =
        .throws (notImplementedMsg requestedId fieldName) ∧
      callFn (standIn true requestedId fieldName) =
        .pending (.rejected (notImplementedMsg requestedId fieldName)) ∧
      awaitOp (.rejected (notImplementedMsg requestedId fieldName)) =
        .error (notImplementedMsg requestedId fieldName) ∧
      notImplementedMsg requestedId fieldName =
        "Cannot call " ++ fieldName ++ "() - driver '" ++ requestedId ++ "' is missing" := by
  intro fieldName requestedId
  exact ⟨rfl, rfl, rfl, rfl⟩

/-- C3 counterexample, refuting two clauses of the claim as stated at
concrete inputs.  First clause (`contains exactly ... carry a default
value ...`): over `cexSchema2`, whose field `emptyDefaultFn` is
function-typed, carries the default value `''` and is not forbidden —
so the claim's words place it in the template (`specOverlayTpl`) — the
constructor's reduce tests the JS truthiness of `_flags.default` and
excludes it, so the computed template is empty and differs from the
spec-worded one.  Last clause (`a function-typed field that is optional
with no default never appears on a synthesized missing driver`): when
the generator itself supplies such a field (here `f`), `_.defaults`
keeps the generator's value, so the field does appear on the driver
`cexMgr` synthesizes; `cexField` is function-typed, optional, has no
default and belongs to the schema. -/
theorem C3_counterexample :
    (mkOverlayTpl cexSchema2 = [] ∧
     specOverlayTpl cexSchema2 = [("emptyDefaultFn", false)] ∧
     ¬(mkOverlayTpl cexSchema2 = specOverlayTpl cexSchema2) ∧
     cexField2 ∈ cexSchema2 ∧ cexField2.type = .func ∧
     cexField2.default?.isSome = true ∧ ¬(cexField2.presence = .forbidden)) ∧
    (cexMgr.synthMissing cexGen "x" = .ok cexDriver ∧
     ¬(assocLookup "f" cexDriver = none) ∧
     cexField ∈ cexSchema ∧ cexField.type = .func ∧
     cexField.presence = .optional ∧ cexField.default? = none) :=
  ⟨⟨rfl, rfl, by decide, by decide, rfl, rfl, by decide⟩,
   ⟨rfl, by decide, by decide, rfl, rfl, rfl⟩⟩

/-- C3 (amended, both changes forced by `C3_counterexample`): over any
schema with distinct keys, the Function Overlay Template computed by
the constructor contains exactly the function-typed fields with a
truthy default value or required presence that are not forbidden — a
falsy default such as the empty string does not count
(`truthyOverlayTpl`) — with a factory asynchronous iff the default is
an asynchronous function or the field is tagged `async`; and a
function-typed field that is optional with no default never appears on
a synthesized missing driver provided the generator did not itself
supply that field. -/
theorem C3_overlay_template :
    ∀ (s : List SchemaField), (s.map SchemaField.key).Nodup →
      mkOverlayTpl s = truthyOverlayTpl s ∧
      (∀ (st : DriverManager) (g : MissingGen) (r : String) (d : Obj) (c : SchemaField),
        st.schema = s → st.fnOverlayTpl = mkOverlayTpl s →
        c ∈ s → c.type = .func → c.presence = .optional → c.default? = none →
        assocLookup c.key ((g r (notImplementedMsg r)).getD []) = none →
        st.synthMissing g r = .ok d → assocLookup c.key d = none) := by
  intro s hnd
  refine ⟨mkOverlayTpl_eq_truthy hnd, ?_⟩
  intro st g r d c hsch htpl hc hft hopt hdef hgen hs
  have hs' : joiValidate s
      (objDefaults (assocSet ((g r (notImplementedMsg r)).getD []) "id" (.vstr "missing"))
        (st.fnOverlayTpl.map (fun kb => (kb.1, Value.vfn (standIn kb.2 r kb.1))))) = .ok d := by
    rw [← hsch]
    exact hs
  by_cases hid : c.key = "id"
  · exfalso
    have hbase : assocLookup "id"
        (assocSet ((g r (notImplementedMsg r)).getD []) "id" (.vstr "missing")) =
        some (.vstr "missing") := assocLookup_assocSet_self _ _ _
    have hcomb : assocLookup "id"
        (objDefaults (assocSet ((g r (notImplementedMsg r)).getD []) "id" (.vstr "missing"))
          (st.fnOverlayTpl.map (fun kb => (kb.1, Value.vfn (standIn kb.2 r kb.1))))) =
        some (.vstr "missing") := assocLookup_objDefaults_left hbase
    have hfe := firstFieldError_none_mem (joiValidate_ok_fieldErrors hs') hc
    unfold fieldError at hfe
    rw [hid, hcomb, hopt, hft] at hfe
    simp [typeOk] at hfe
  · have hbaseN : assocLookup c.key
        (assocSet ((g r (notImplementedMsg r)).getD []) "id" (.vstr "missing")) = none := by
      rw [assocLookup_assocSet_ne _ _ hid]
      exact hgen
    have htplN : assocLookup c.key (mkOverlayTpl s) = none := by
      rw [mkOverlayTpl_eq_truthy hnd]
      cases hl : assocLookup c.key (truthyOverlayTpl s) with
      | none => rfl
      | some b =>
        exfalso
        obtain ⟨c', hm, hkey, hcond⟩ := truthyOverlayTpl_lookup_some hl
        have hcc : c' = c := nodupKeys_eq hnd hm hc hkey
        subst hcc
        rcases hcond.2.1 with hdt | hreq
        · simp [defaultTruthy, hdef] at hdt
        · rw [hopt] at hreq
          simp at hreq
    have hoverN : assocLookup c.key
        (st.fnOverlayTpl.map (fun kb => (kb.1, Value.vfn (standIn kb.2 r kb.1)))) = none := by
      apply assocLookup_overlay_none
      rw [htpl]
      exact htplN
    have hcombN : assocLookup c.key
        (objDefaults (assocSet ((g r (notImplementedMsg r)).getD []) "id" (.vstr "missing"))
          (st.fnOverlayTpl.map (fun kb => (kb.1, Value.vfn (standIn kb.2 r kb.1))))) = none :=
      assocLookup_objDefaults_none hbaseN hoverN
    refine joiValidate_absent hs' hcombN ?_
    intro c' hm hkey
    have hcc : c' = c := nodupKeys_eq hnd hm hc hkey
    rw [hcc]
    exact hdef

/-- C3 witness at a concrete schema: the computed template matches the
amended (truthy-default) template characterization, and the optional
defaultless function field `optionalSyncFn` is absent from the
synthesized driver. -/
theorem C3_witness :
    mkOverlayTpl w3Schema = truthyOverlayTpl w3Schema ∧
    assocLookup "optionalSyncFn" w3Missing = none :=
  ⟨(C3_overlay_template w3Schema (by decide)).1,
   (C3_overlay_template w3Schema (by decide)).2 w3Mgr w3Gen "foo" w3Missing w3Field
     rfl rfl (by decide) rfl rfl rfl rfl rfl⟩

/-- C4: in every reachable registry state, a configured missing
generator and a stored driver with id `missing` are mutually exclusive;
moreover (in any state) setting the generator fails with the
ConfigurationError when a driver with id `missing` already exists, and
`add` fails with the DuplicateIdError when the validated id equals
`missing` and a generator is configured, each leaving the state
untouched. -/
theorem C4_missing_mutual_exclusion :
    (∀ st : DriverManager, Reachable st → missingExclusive st) ∧
    (∀ (st : DriverManager) (g : MissingGen), st.existsId "missing" = true →
      (st.setMissing (.gen g)).2 = .error (.jsError "Cannot configure a default 'missing' driver when a driver with that id has already been added") ∧
      (st.setMissing (.gen g)).1 = st ∧
      (st.setMissing .boolTrue).2 = .error (.jsError "Cannot configure a default 'missing' driver when a driver with that id has already been added") ∧
      (st.setMissing .boolTrue).1 = st) ∧
    (∀ (st : DriverManager) (driver d : Obj), st.missingGen.isSome = true →
      st.validate driver = .ok d → assocLookup "id" d = some (.vstr "missing") →
      (st.add driver).2 = .error (.jsError "A driver with id 'missing' cannot be registered when the DriverManager already has a default 'missing' driver. This should be done when the DriverManager is created.") ∧
      (st.add driver).1 = st) := by
  refine ⟨?_, ?_, ?_⟩
  · intro st h
    exact exclusive_reachable h
  · intro st g he
    refine ⟨?_, ?_, ?_, ?_⟩ <;> simp only [DriverManager.setMissing, if_pos he]
  · intro st driver d hg hv hid
    rw [add_missing_guard hv ⟨hg, hid⟩]
    exact ⟨rfl, rfl⟩

/-- C4 witness: a freshly constructed registry satisfies the invariant;
with a `missing` driver stored the setter fails; with a generator
configured `add` of a `missing`-id driver fails. -/
theorem C4_witness :
    missingExclusive mgrBlank ∧
    (mgrWithMissingStored.setMissing (.gen w4Gen)).2 = .error (.jsError "Cannot configure a default 'missing' driver when a driver with that id has already been added") ∧
    (mgrWithGen.add missingDriverObj).2 = .error (.jsError "A driver with id 'missing' cannot be registered when the DriverManager already has a default 'missing' driver. This should be done when the DriverManager is created.") :=
  ⟨C4_missing_mutual_exclusion.1 mgrBlank (Reachable.init (CtorCall.two "driver" []) mgrBlank rfl),
   (C4_missing_mutual_exclusion.2.1 mgrWithMissingStored w4Gen rfl).1,
   (C4_missing_mutual_exclusion.2.2 mgrWithGen missingDriverObj missingDriverObj rfl rfl rfl).1⟩

/-- C5: `remove('missing')` fails with the same error in every registry
state, whether or not a generator is configured and whether or not a
driver with that id is stored, and leaves the state unchanged. -/
theorem C5_remove_missing_always_fails :
    ∀ st : DriverManager,
      st.remove "missing" =
        (st, .error (.jsError "Cannot remove the configured default 'missing' driver")) := by
  intro st
  unfold DriverManager.remove
  rw [if_pos rfl]

/-- C6: a driver that validates, whose validated id is fresh and is not
`missing`-while-a-generator-is-configured, is returned by `add` in
validated form, and `get` of that id on the resulting registry returns
exactly the stored validated driver. -/
theorem C6_add_get_roundtrip :
    ∀ (st : DriverManager) (driver d : Obj) (i : String) (an : Bool),
      st.validate driver = .ok d →
      assocLookup "id" d = some (.vstr i) →
      st.existsId i = false →
      ¬(st.missingGen.isSome = true ∧ i = "missing") →
      (st.add driver).2 = .ok d ∧ (((st.add driver).1).get i an).2 = .ok (some d) := by
  intro st driver d i an hv hid he hnm
  have hkey : idKeyOf d = i := by
    unfold idKeyOf
    rw [hid]
  have hg1 : ¬(st.missingGen.isSome = true ∧ assocLookup "id" d = some (.vstr "missing")) := by
    rintro ⟨hg, hm⟩
    rw [hid] at hm
    exact hnm ⟨hg, Value.vstr.inj (Option.some.inj hm)⟩
  have hg2 : ¬(st.existsId (idKeyOf d) = true) := by
    rw [hkey, he]
    simp
  rw [add_stores hv hg1 hg2]
  have hlook : assocLookup i (st.drivers ++ [(idKeyOf d, d)]) = some d := by
    rw [assocLookup_append, existsId_false_lookup he]
    show assocLookup i [(idKeyOf d, d)] = some d
    rw [hkey]
    simp [assocLookup]
  refine ⟨rfl, ?_⟩
  have hex : ({ st with drivers := st.drivers ++ [(idKeyOf d, d)] } : DriverManager).existsId i = true := by
    show (assocLookup i (st.drivers ++ [(idKeyOf d, d)])).isSome = true
    rw [hlook]
    rfl
  unfold DriverManager.get
  rw [if_pos hex]
  show Except.ok (assocLookup i (st.drivers ++ [(idKeyOf d, d)])) = .ok (some d)
  rw [hlook]

/-- C6 witness: adding a fresh `foo` driver to an empty registry and
reading it back. -/
theorem C6_witness :
    (mgrBlank.add fooDriver).2 = .ok fooDriver ∧
    (((mgrBlank.add fooDriver).1).get "foo" false).2 = .ok (some fooDriver) :=
  C6_add_get_roundtrip mgrBlank fooDriver fooDriver "foo" false rfl rfl rfl (by decide)

/-- C7: adding a driver whose validated id is already stored fails with
one of the two duplicate-id errors of the spec's taxonomy and leaves
the driver store (the whole state) exactly as it was. -/
theorem C7_duplicate_add :
    ∀ (st : DriverManager) (driver d : Obj) (i : String),
      st.validate driver = .ok d →
      assocLookup "id" d = some (.vstr i) →
      st.existsId i = true →
      (st.add driver).1 = st ∧
      ((st.add driver).2 = .error (.jsError ("A driver is already registered with id " ++ i)) ∨
       (st.add driver).2 = .error (.jsError "A driver with id 'missing' cannot be registered when the DriverManager already has a default 'missing' driver. This should be done when the DriverManager is created.")) := by
  intro st driver d i hv hid he
  have hkey : idKeyOf d = i := by
    unfold idKeyOf
    rw [hid]
  by_cases h1 : st.missingGen.isSome = true ∧ assocLookup "id" d = some (.vstr "missing")
  · rw [add_missing_guard hv h1]
    exact ⟨rfl, Or.inr rfl⟩
  · have h2 : st.existsId (idKeyOf d) = true := by
      rw [hkey]
      exact he
    rw [add_duplicate hv h1 h2]
    refine ⟨rfl, Or.inl ?_⟩
    rw [hkey]

/-- C7 witness: re-adding the `foo` driver fails and the state is
unchanged. -/
theorem C7_witness :
    (mgrWithFoo.add fooDriver).1 = mgrWithFoo ∧
    ((mgrWithFoo.add fooDriver).2 = .error (.jsError ("A driver is already registered with id " ++ "foo")) ∨
     (mgrWithFoo.add fooDriver).2 = .error (.jsError "A driver with id 'missing' cannot be registered when the DriverManager already has a default 'missing' driver. This should be done when the DriverManager is created.")) :=
  C7_duplicate_add mgrWithFoo fooDriver fooDriver "foo" rfl rfl rfl

/-- C8: with no generator configured and an absent id, `get` with a
falsy `allowNull` fails with the bad-request error naming the driver
type and the id, while `get(id, true)` returns the absent value without
throwing. -/
theorem C8_not_found :
    ∀ (st : DriverManager) (r : String),
      st.missingGen = none → st.existsId r = false →
      (st.get r false).2 = .error (.badRequest ("No " ++ st.driverType ++ " driver registered with id \"" ++ r ++ "\" and no default 'missing' driver was configured.")) ∧
      (st.get r true).2 = .ok none := by
  intro st r hg he
  have hne : ¬(st.existsId r = true) := by
    rw [he]
    simp
  constructor
  · unfold DriverManager.get
    rw [if_neg hne, hg]
    rfl
  · unfold DriverManager.get
    rw [if_neg hne, hg]
    show Except.ok (assocLookup r st.drivers) = .ok none
    rw [existsId_false_lookup he]

/-- C8 witness at an empty registry and id `baz`. -/
theorem C8_witness :
    (mgrBlank.get "baz" false).2 = .error (.badRequest ("No " ++ mgrBlank.driverType ++ " driver registered with id \"" ++ "baz" ++ "\" and no default 'missing' driver was configured.")) ∧
    (mgrBlank.get "baz" true).2 = .ok none :=
  C8_not_found mgrBlank "baz" rfl rfl

/-- C9: `get` never mutates the registry: for every id and `allowNull`
value, and for the no-argument form, the post-state is the very
pre-state, so the driver store and in particular `exists('missing')`
are unchanged (a synthesized missing driver is never inserted). -/
theorem C9_get_pure :
    ∀ (st : DriverManager) (id : String) (an : Bool),
      (st.get id an).1 = st ∧ st.getStore.1 = st ∧
      ((st.get id an).1).drivers = st.drivers ∧
      ((st.get id an).1).existsId "missing" = st.existsId "missing" := by
  intro st id an
  refine ⟨get_fst st id an, rfl, ?_, ?_⟩
  · rw [get_fst]
  · rw [get_fst]

/-- C10: with exactly three constructor arguments and a third argument
that is not a plain object (a function, `true`, or even `null`), that
argument is treated as the missing generator and the validation options
are left undefined; with a plain-object third argument or with four
arguments, the third argument is the validation options. -/
theorem C10_ctor_dispatch :
    (∀ (t : String) (s : List SchemaField) (g : MissingGen) (st : DriverManager),
      create (.three t s (.gen g)) = .ok st →
      st.options = .undef ∧ st.missingGen = some g) ∧
    (∀ (t : String) (s : List SchemaField) (st : DriverManager),
      create (.three t s .boolTrue) = .ok st →
      st.options = .undef ∧ st.missingGen = some constEmptyGen) ∧
    (∀ (t : String) (s : List SchemaField) (st : DriverManager),
      create (.three t s .nullv) = .ok st →
      st.options = .undef ∧ st.missingGen = none) ∧
    (∀ (t : String) (s : List SchemaField) (o : Obj) (st : DriverManager),
      create (.three t s (.plainObj o)) = .ok st →
      st.options = .plainObj o ∧ st.missingGen = none) ∧
    (∀ (t : String) (s : List SchemaField) (a3 a4 : CtorArg) (st : DriverManager),
      create (.four t s a3 a4) = .ok st → st.options = a3) := by
  refine ⟨?_, ?_, ?_, ?_, ?_⟩
  · intro t s g st h
    have h' : mkManager t s .undef (.gen g) = .ok st := h
    exact ⟨(mkManager_ok_basic h').2.1, mkManager_gen_missingGen h'⟩
  · intro t s st h
    have h' : mkManager t s .undef .boolTrue = .ok st := h
    exact ⟨(mkManager_ok_basic h').2.1, mkManager_boolTrue_missingGen h'⟩
  · intro t s st h
    have h' : mkManager t s .undef .nullv = .ok st := h
    exact ⟨(mkManager_ok_basic h').2.1, mkManager_nullv_missingGen h'⟩
  · intro t s o st h
    have h' : mkManager t s (.plainObj o) .undef = .ok st := h
    exact ⟨(mkManager_ok_basic h').2.1, mkManager_undef_missingGen h'⟩
  · intro t s a3 a4 st h
    exact (mkManager_ok_basic (show mkManager t s a3 a4 = .ok st from h)).2.1

/-- C10 witness: a 3-argument call with a function third argument lands
it in the generator slot with undefined options; a plain-object third
argument lands in the options slot; a 4-argument call keeps positional
options. -/
theorem C10_witness :
    (mgrWithGen.options = CtorArg.undef ∧ mgrWithGen.missingGen = some w4Gen) ∧
    (mgrThreeOpts.options = CtorArg.plainObj w10Opts ∧ mgrThreeOpts.missingGen = none) ∧
    mgrFour.options = CtorArg.nullv :=
  ⟨C10_ctor_dispatch.1 "things" [] w4Gen mgrWithGen rfl,
   C10_ctor_dispatch.2.2.2.1 "things" [] w10Opts mgrThreeOpts rfl,
   C10_ctor_dispatch.2.2.2.2 "things" [] .nullv (.gen w4Gen) mgrFour rfl⟩
